import Mathlib

/-!
Shallow embedding of the contractlens clause risk-classification and
precedent-retrieval pipeline (`app/risk_engine.py`, `app/precedent_agent.py`,
`app/models.py`).

External collaborators (the embedding service, the vector index and the
structured-completion service) are passed in as an explicit `Services`
record of fallible oracles; Python exceptions are modelled by the
`Except PyError` monad.  Python dictionaries parsed from JSON are modelled
by records of `Option`-valued fields: `d["k"]` is `dictRequire` (raising
`KeyError` when absent) and `d.get("k", default)` is `Option.getD`.
-/

set_option maxRecDepth 100000

namespace ContractLens

/-- A Python exception: `KeyError(key)` or a runtime/service error. -/
inductive PyError where
  | keyError : String → PyError
  | runtimeError : String → PyError
deriving DecidableEq

/-- Auxiliary for substring search on character lists: Python `needle in hay`. -/
def listContainsSub (needle : List Char) : List Char → Bool
  | [] => needle.isEmpty
  | c :: rest => needle.isPrefixOf (c :: rest) || listContainsSub needle rest

/-- Python `needle in hay` on strings. -/
def strContains (hay needle : String) : Bool :=
  listContainsSub needle.data hay.data

/-- Python `str.lower` on one character (ASCII case range; the classifier
keywords are all ASCII). -/
def pyToLowerChar (c : Char) : Char :=
  if 65 ≤ c.toNat ∧ c.toNat ≤ 90 then Char.ofNat (c.toNat + 32) else c

/-- Python `str.lower`: `clause.raw_text.lower()` in `basic_rules_risk`. -/
def pyLower (s : String) : String := ⟨s.data.map pyToLowerChar⟩

/-- `app/models.py` `Clause`. -/
structure Clause where
  label : String
  raw_text : String
  start_char : Option Int
  end_char : Option Int
deriving DecidableEq

/-- `app/models.py` `PrecedentClause`. -/
structure PrecedentClause where
  id : String
  clause_type : String
  text : String
  risk_level : String
  jurisdiction : Option String
  contract_type : Option String
deriving DecidableEq

/-- `app/models.py` `ClauseAnalysis`. -/
structure ClauseAnalysis where
  clause_label : String
  risk_level : String
  explanation : String
  suggested_text : String
  precedent_snippets : List String
deriving DecidableEq

/-- A value stored in a playbook rule dict: an int, a string, or a list of strings. -/
inductive PBValue where
  | int : Int → PBValue
  | str : String → PBValue
  | strList : List String → PBValue
deriving DecidableEq

/-- A per-label playbook rule: a Python dict of policy keys to values,
modelled as an association list in insertion order. -/
abbrev PlaybookRule := List (String × PBValue)

/-- `app/risk_engine.py` `PLAYBOOK`: the hard-coded rules dict. -/
def PLAYBOOK : List (String × PlaybookRule) :=
  [("limitation_of_liability",
     [("max_cap_months", .int 12),
      ("allow_unlimited_for", .strList ["death_or_personal_injury", "fraud"]),
      ("disallow_exclusions", .strList ["gross_negligence", "wilful_misconduct"])]),
   ("governing_law",
     [("preferred", .strList ["England and Wales"]),
      ("discouraged", .strList []),
      ("forbidden", .strList [])]),
   ("termination",
     [("min_notice_days", .int 30)])]

/-- `PLAYBOOK.get(label, {})` in `analyse_clause`: dict lookup defaulting to
the empty dict. -/
def PLAYBOOK_get (label : String) : PlaybookRule :=
  (PLAYBOOK.lookup label).getD []

/-- `app/risk_engine.py` `basic_rules_risk`: deterministic first-pass risk
score from label-specific lexical checks over the lower-cased text. -/
def basic_rules_risk (clause : Clause) (playbook : PlaybookRule) (risk_profile : String) : String :=
  let label := clause.label
  let text := pyLower clause.raw_text
  if label = "limitation_of_liability" then
    if strContains text "unlimited" && !strContains text "death" && !strContains text "personal injury" then
      "RED"
    else if strContains text "cap" || strContains text "maximum" || strContains text "shall not exceed" then
      "AMBER"
    else
      "RED"
  else if label = "governing_law" then
    if strContains text "england" && strContains text "wales" then
      "GREEN"
    else
      "AMBER"
  else if label = "termination" then
    if strContains text "immediate" && strContains text "any reason" then
      "RED"
    else if strContains text "days" || strContains text "months" then
      "AMBER"
    else
      "AMBER"
  else
    "AMBER"

/-- An embedding vector (`list[float]`); the numeric carrier is irrelevant to
every claim, only whether the call raises and which hits come back matter. -/
abbrev Emb := List Rat

/-- A Qdrant hit payload: a JSON dict whose fields may each be absent. -/
structure QdrantPayload where
  clause_type : Option String
  contract_type : Option String
  risk_level : Option String
  jurisdiction : Option String
  text : Option String
deriving DecidableEq

/-- The empty payload dict `{}` used for `hit.payload or {}`. -/
def emptyPayload : QdrantPayload :=
  { clause_type := none, contract_type := none, risk_level := none,
    jurisdiction := none, text := none }

/-- A Qdrant search hit: `str(hit.id)` and an optional payload dict. -/
structure QdrantHit where
  id : String
  payload : Option QdrantPayload
deriving DecidableEq

/-- The parsed JSON dict returned by `call_gemini_json` for the risk schema:
each expected key may be absent. -/
structure GeminiJson where
  risk_level : Option String
  explanation : Option String
  suggested_text : Option String
  precedent_snippets : Option (List String)
deriving DecidableEq

/-- The external collaborators, each a fallible oracle: the embedding
service (`get_embedding`), the vector index (`search_precedents`), and the
structured-completion service (`call_gemini_json`, taking the system
instruction and the user prompt). -/
structure Services where
  get_embedding : String → Except PyError Emb
  search_precedents : Emb → String → String → Nat → Except PyError (List QdrantHit)
  call_gemini_json : String → String → Except PyError GeminiJson

/-- `app/precedent_agent.py` `get_precedents_for_clause`: embed the clause,
query the index (the source's default `limit` is 3, passed explicitly here),
and map each hit payload into a `PrecedentClause`, defaulting missing payload
fields. Errors from either external call propagate. -/
def get_precedents_for_clause (S : Services) (clause_text clause_type contract_type : String)
    (limit : Nat) : Except PyError (List PrecedentClause) := do
  let emb ← S.get_embedding clause_text
  let hits ← S.search_precedents emb clause_type contract_type limit
  .ok (hits.map fun hit =>
    let payload := hit.payload.getD emptyPayload
    { id := hit.id
      clause_type := payload.clause_type.getD ""
      contract_type := payload.contract_type
      risk_level := payload.risk_level.getD ""
      jurisdiction := payload.jurisdiction
      text := payload.text.getD "" })

/-- Python single-quote character, for `str(dict)` rendering. -/
def sq : String := "\x27"

/-- Python `repr` of a plain string (no escaping needed for the playbook
strings, which contain no special characters). -/
def pyStrRepr (s : String) : String := sq ++ s ++ sq

/-- Python `repr` of a list of strings. -/
def pyListRepr (l : List String) : String :=
  "[" ++ String.intercalate ", " (l.map pyStrRepr) ++ "]"

/-- Python `repr` of a playbook value. -/
def PBValue.pyRepr : PBValue → String
  | .int n => toString n
  | .str s => pyStrRepr s
  | .strList l => pyListRepr l

/-- Python `str` of a playbook rule dict, as interpolated by `{playbook}`
in the user prompt f-string. -/
def pyReprRule (r : PlaybookRule) : String :=
  "\x7b" ++ String.intercalate ", " (r.map fun kv => pyStrRepr kv.1 ++ ": " ++ kv.2.pyRepr) ++ "\x7d"

/-- `app/risk_engine.py` `RISK_SYSTEM`: the system instruction string. -/
def RISK_SYSTEM : String :=
  "\nYou are a conservative contract risk reviewer.\nGiven a specific clause, a playbook, a risk profile, and some model precedents,\nassign a risk level and suggest a better clause.\n\nReturn ONLY JSON matching this schema:\n\n\x7b\n  \"risk_level\": \"GREEN\" | \"AMBER\" | \"RED\",\n  \"explanation\": \"short explanation\",\n  \"suggested_text\": \"improved clause text, in similar style\",\n  \"precedent_snippets\": [\"short snippet 1\", \"short snippet 2\"]\n\x7d\n\nRules:\n- \"GREEN\" means broadly OK for a conservative customer.\n- \"AMBER\" means acceptable but with some concerns.\n- \"RED\" means high-risk and should be renegotiated.\n- Use the playbook and the rule-based preliminary risk as strong signals.\n- Use the precedent clauses as models of better wording where useful.\n"

/-- The `user_prompt` f-string built inside `analyse_clause`. -/
def build_user_prompt (clause : Clause) (risk_profile rule_risk : String)
    (playbook : PlaybookRule) (precedents_text : String) : String :=
  "\nClause label: " ++ clause.label ++
  "\nRisk profile: " ++ risk_profile ++
  "\nRule-based preliminary risk: " ++ rule_risk ++
  "\n\nPlaybook for this clause type:\n" ++ pyReprRule playbook ++
  "\n\nActual contract clause:\n<clause>\n" ++ clause.raw_text ++
  "\n</clause>\n\nRelevant precedent clauses:\n" ++ precedents_text ++
  "\n\nReturn strictly the JSON schema specified in the system instruction.\n"

/-- Python `d["key"]` on an optional field: the value, or `KeyError(key)`. -/
def dictRequire {α : Type} (v : Option α) (key : String) : Except PyError α :=
  match v with
  | some x => .ok x
  | none => .error (.keyError key)

/-- `app/risk_engine.py` `analyse_clause`: rule-based risk, precedent
retrieval (no local recovery: retrieval errors propagate), Gemini call, and
construction of the `ClauseAnalysis` from the response dict. The required
keys are looked up in the source's evaluation order; `precedent_snippets`
uses `.get` with default `[]`. -/
def analyse_clause (S : Services) (clause : Clause) (contract_type risk_profile : String) :
    Except PyError ClauseAnalysis := do
  let playbook := PLAYBOOK_get clause.label
  let rule_risk := basic_rules_risk clause playbook risk_profile
  let precedents ← get_precedents_for_clause S clause.raw_text clause.label contract_type 3
  let precedents_text := String.intercalate "\n\n"
    (precedents.map fun p => "- [" ++ p.risk_level ++ "] " ++ p.text)
  let user_prompt := build_user_prompt clause risk_profile rule_risk playbook precedents_text
  let raw ← S.call_gemini_json RISK_SYSTEM user_prompt
  let risk_level ← dictRequire raw.risk_level "risk_level"
  let explanation ← dictRequire raw.explanation "explanation"
  let suggested_text ← dictRequire raw.suggested_text "suggested_text"
  .ok { clause_label := clause.label
        risk_level := risk_level
        explanation := explanation
        suggested_text := suggested_text
        precedent_snippets := raw.precedent_snippets.getD [] }

/-- The tracked-label set literal in `analyse_clauses`. -/
def tracked_labels : List String :=
  ["limitation_of_liability", "governing_law", "termination"]

/-- `app/risk_engine.py` `analyse_clauses`: loop over the clauses, analysing
only tracked labels and appending each result; any exception from
`analyse_clause` propagates out of the loop uncaught. -/
def analyse_clauses (S : Services) (clauses : List Clause) (contract_type risk_profile : String) :
    Except PyError (List ClauseAnalysis) :=
  match clauses with
  | [] => .ok []
  | c :: rest =>
    if c.label ∈ tracked_labels then do
      let a ← analyse_clause S c contract_type risk_profile
      let rest_analyses ← analyse_clauses S rest contract_type risk_profile
      .ok (a :: rest_analyses)
    else
      analyse_clauses S rest contract_type risk_profile

/-- Sequentially run a fallible analysis over a clause list, collecting the
results in order; the first error aborts the rest. -/
def exceptMapClauses (f : Clause → Except PyError ClauseAnalysis) :
    List Clause → Except PyError (List ClauseAnalysis)
  | [] => .ok []
  | c :: rest => do
    let a ← f c
    let rest_analyses ← exceptMapClauses f rest
    .ok (a :: rest_analyses)

/-- Claim C9: the deterministic classifier reads only the clause; the
playbook and risk_profile arguments never influence the output. -/
theorem claim_C9 (c : Clause) (pb1 pb2 : PlaybookRule) (rp1 rp2 : String) :
    basic_rules_risk c pb1 rp1 = basic_rules_risk c pb2 rp2 := rfl

/-- Claim C8: the playbook lookup is a pure total function returning the
registered rule set for the three registered labels and the empty rule
object for every other label, never an error. -/
theorem claim_C8 (label : String) :
    PLAYBOOK_get label =
      if label = "limitation_of_liability" then
        [("max_cap_months", .int 12),
         ("allow_unlimited_for", .strList ["death_or_personal_injury", "fraud"]),
         ("disallow_exclusions", .strList ["gross_negligence", "wilful_misconduct"])]
      else if label = "governing_law" then
        [("preferred", .strList ["England and Wales"]),
         ("discouraged", .strList []),
         ("forbidden", .strList [])]
      else if label = "termination" then
        [("min_notice_days", .int 30)]
      else [] := by
  split_ifs with h1 h2 h3
  · subst h1; rfl
  · subst h2; rfl
  · subst h3; rfl
  · have e1 : (label == "limitation_of_liability") = false := beq_eq_false_iff_ne.mpr h1
    have e2 : (label == "governing_law") = false := beq_eq_false_iff_ne.mpr h2
    have e3 : (label == "termination") = false := beq_eq_false_iff_ne.mpr h3
    simp [PLAYBOOK_get, PLAYBOOK, List.lookup, e1, e2, e3]

/-- Claim C4: for a limitation_of_liability clause, the classifier returns
RED when the lower-cased text contains "unlimited" but neither "death" nor
"personal injury"; otherwise AMBER when it contains any of "cap",
"maximum", "shall not exceed"; otherwise RED. -/
theorem claim_C4 (c : Clause) (pb : PlaybookRule) (rp : String)
    (hl : c.label = "limitation_of_liability") :
    (strContains (pyLower c.raw_text) "unlimited" = true ∧
     strContains (pyLower c.raw_text) "death" = false ∧
     strContains (pyLower c.raw_text) "personal injury" = false →
       basic_rules_risk c pb rp = "RED") ∧
    (¬ (strContains (pyLower c.raw_text) "unlimited" = true ∧
        strContains (pyLower c.raw_text) "death" = false ∧
        strContains (pyLower c.raw_text) "personal injury" = false) →
     (strContains (pyLower c.raw_text) "cap" = true ∨
      strContains (pyLower c.raw_text) "maximum" = true ∨
      strContains (pyLower c.raw_text) "shall not exceed" = true) →
       basic_rules_risk c pb rp = "AMBER") ∧
    (¬ (strContains (pyLower c.raw_text) "unlimited" = true ∧
        strContains (pyLower c.raw_text) "death" = false ∧
        strContains (pyLower c.raw_text) "personal injury" = false) →
     ¬ (strContains (pyLower c.raw_text) "cap" = true ∨
        strContains (pyLower c.raw_text) "maximum" = true ∨
        strContains (pyLower c.raw_text) "shall not exceed" = true) →
       basic_rules_risk c pb rp = "RED") := by
  simp only [basic_rules_risk, hl]
  cases h1 : strContains (pyLower c.raw_text) "unlimited" <;>
  cases h2 : strContains (pyLower c.raw_text) "death" <;>
  cases h3 : strContains (pyLower c.raw_text) "personal injury" <;>
  cases h4 : strContains (pyLower c.raw_text) "cap" <;>
  cases h5 : strContains (pyLower c.raw_text) "maximum" <;>
  cases h6 : strContains (pyLower c.raw_text) "shall not exceed" <;>
  simp_all

/-- Concrete limitation_of_liability clause for the C4 witness. -/
def c4Clause : Clause :=
  ⟨"limitation_of_liability", "Supplier liability shall be unlimited.", none, none⟩

/-- Witness for C4 at a concrete clause: uncapped unlimited liability is RED. -/
theorem claim_C4_witness :
    basic_rules_risk c4Clause [] "conservative" = "RED" :=
  (claim_C4 c4Clause [] "conservative" rfl).1 (by decide)

/-- Claim C5: for a governing_law clause, the classifier returns GREEN iff
the lower-cased text contains both "england" and "wales", AMBER otherwise. -/
theorem claim_C5 (c : Clause) (pb : PlaybookRule) (rp : String)
    (hl : c.label = "governing_law") :
    (basic_rules_risk c pb rp = "GREEN" ↔
      strContains (pyLower c.raw_text) "england" = true ∧
      strContains (pyLower c.raw_text) "wales" = true) ∧
    (basic_rules_risk c pb rp = "AMBER" ↔
      ¬ (strContains (pyLower c.raw_text) "england" = true ∧
         strContains (pyLower c.raw_text) "wales" = true)) := by
  simp only [basic_rules_risk, hl]
  cases h1 : strContains (pyLower c.raw_text) "england" <;>
  cases h2 : strContains (pyLower c.raw_text) "wales" <;>
  simp_all

/-- Concrete governing_law clause for the C5 witness. -/
def c5Clause : Clause :=
  ⟨"governing_law", "This Agreement is governed by the laws of England and Wales.", none, none⟩

/-- Witness for C5 at a concrete clause: England and Wales law is GREEN. -/
theorem claim_C5_witness :
    basic_rules_risk c5Clause [] "conservative" = "GREEN" :=
  (claim_C5 c5Clause [] "conservative" rfl).1.mpr (by decide)

/-- Claim C6: for a termination clause, the classifier returns RED when the
lower-cased text contains both "immediate" and "any reason", and AMBER in
every other case (whether or not "days"/"months" occur). -/
theorem claim_C6 (c : Clause) (pb : PlaybookRule) (rp : String)
    (hl : c.label = "termination") :
    (strContains (pyLower c.raw_text) "immediate" = true ∧
     strContains (pyLower c.raw_text) "any reason" = true →
       basic_rules_risk c pb rp = "RED") ∧
    (¬ (strContains (pyLower c.raw_text) "immediate" = true ∧
        strContains (pyLower c.raw_text) "any reason" = true) →
       basic_rules_risk c pb rp = "AMBER") := by
  simp only [basic_rules_risk, hl]
  cases h1 : strContains (pyLower c.raw_text) "immediate" <;>
  cases h2 : strContains (pyLower c.raw_text) "any reason" <;>
  cases h3 : strContains (pyLower c.raw_text) "days" <;>
  cases h4 : strContains (pyLower c.raw_text) "months" <;>
  simp_all

/-- Concrete termination clause for the C6 witness: no "days"/"months"
match, still AMBER (no RED fallback). -/
def c6Clause : Clause :=
  ⟨"termination", "Either party may terminate for material breach.", none, none⟩

/-- Witness for C6 at a concrete clause with no notice-period wording. -/
theorem claim_C6_witness :
    basic_rules_risk c6Clause [] "conservative" = "AMBER" :=
  (claim_C6 c6Clause [] "conservative" rfl).2 (by decide)

/-- Claim C7: analysing a batch is exactly the sequential analysis of the
tracked-label clauses, filtered in input order; untracked labels are
silently dropped, never an error. -/
theorem claim_C7 (S : Services) (clauses : List Clause) (ct rp : String) :
    analyse_clauses S clauses ct rp =
      exceptMapClauses (fun c => analyse_clause S c ct rp)
        (clauses.filter fun c => decide (c.label ∈ tracked_labels)) := by
  induction clauses with
  | nil => rfl
  | cons c rest ih =>
    by_cases h : c.label ∈ tracked_labels <;>
    simp [analyse_clauses, List.filter_cons, h, exceptMapClauses, ih]

/-- Bind on a successful `Except` step. -/
theorem exceptBindOk {α β : Type} (a : α) (f : α → Except PyError β) :
    ((Except.ok a : Except PyError α) >>= f) = f a := rfl

/-- Bind on a failed `Except` step propagates the error. -/
theorem exceptBindErr {α β : Type} (e : PyError) (f : α → Except PyError β) :
    ((Except.error e : Except PyError α) >>= f) = .error e := rfl

/-- Services for the C1 evaluation: retrieval always succeeds with no hits;
the completion call raises exactly when the prompt contains the marker text
of the failing clause, and otherwise returns a well-formed verdict. -/
def c1Services : Services :=
  { get_embedding := fun _ => .ok []
    search_precedents := fun _ _ _ _ => .ok []
    call_gemini_json := fun _ usr =>
      if strContains usr "XFAILX" then .error (.runtimeError "completion failed")
      else .ok ⟨some "GREEN", some "ok", some "ok", some []⟩ }

/-- The tracked clause whose completion call fails (its text carries the
marker the C1 completion oracle rejects). -/
def c1FailClause : Clause :=
  ⟨"limitation_of_liability", "XFAILX liability is unlimited.", none, none⟩

/-- A tracked clause whose analysis succeeds on its own. -/
def c1OkClause : Clause :=
  ⟨"governing_law", "Governed by the laws of England and Wales.", none, none⟩

/-- Claim C1 evaluated at the failing input: the second clause analyses
fine in isolation, yet the batch returns no verdict at all — the first
clause's unrecovered completion error propagates out of `analyse_clauses`
instead of leaving the sibling's verdict intact. -/
theorem claim_C1_code_bug :
    analyse_clause c1Services c1OkClause "saas" "conservative" =
      .ok ⟨"governing_law", "GREEN", "ok", "ok", []⟩ ∧
    analyse_clauses c1Services [c1FailClause, c1OkClause] "saas" "conservative" =
      .error (.runtimeError "completion failed") := ⟨rfl, rfl⟩

/-- Services for the C2 evaluation: the embedding call raises. -/
def c2Services : Services :=
  { get_embedding := fun _ => .error (.runtimeError "embedding service unavailable")
    search_precedents := fun _ _ _ _ => .ok []
    call_gemini_json := fun _ _ => .ok ⟨some "GREEN", some "ok", some "ok", some []⟩ }

/-- Same services except the embedding call succeeds (with no hits). -/
def c2ServicesOk : Services :=
  { get_embedding := fun _ => .ok []
    search_precedents := fun _ _ _ _ => .ok []
    call_gemini_json := fun _ _ => .ok ⟨some "GREEN", some "ok", some "ok", some []⟩ }

/-- Concrete clause for the C2 evaluation. -/
def c2Clause : Clause :=
  ⟨"governing_law", "This Agreement is governed by the laws of England and Wales.", none, none⟩

/-- Claim C2 evaluated at the failing input: when precedent retrieval
raises, `analyse_clause` propagates the error and aborts the clause — it
does not fall back to an empty precedent list, although with an empty
precedent list (second conjunct) the very same clause and completion
service yield a verdict. -/
theorem claim_C2_code_bug :
    analyse_clause c2Services c2Clause "saas" "conservative" =
      .error (.runtimeError "embedding service unavailable") ∧
    analyse_clause c2ServicesOk c2Clause "saas" "conservative" =
      .ok ⟨"governing_law", "GREEN", "ok", "ok", []⟩ := ⟨rfl, rfl⟩

/-- Services for the C3 counterexample: retrieval succeeds with zero hits,
and the completion response carries a non-empty `precedent_snippets`. -/
def c3Services : Services :=
  { get_embedding := fun _ => .ok []
    search_precedents := fun _ _ _ _ => .ok []
    call_gemini_json := fun _ _ =>
      .ok ⟨some "AMBER", some "Notice period is short.", some "Better text.",
           some ["A model snippet."]⟩ }

/-- Concrete clause for the C3 counterexample. -/
def c3Clause : Clause :=
  ⟨"termination", "Either party may terminate on 30 days notice.", none, none⟩

/-- Counterexample to C3 as stated: with an empty precedent result set the
verdict's `precedent_snippets` is whatever the completion response carries
— here a non-empty list, not the empty list the claim requires. -/
theorem claim_C3_counterexample :
    get_precedents_for_clause c3Services c3Clause.raw_text c3Clause.label "saas" 3 = .ok [] ∧
    analyse_clause c3Services c3Clause "saas" "conservative" =
      .ok ⟨"termination", "AMBER", "Notice period is short.", "Better text.",
           ["A model snippet."]⟩ ∧
    (⟨"termination", "AMBER", "Notice period is short.", "Better text.",
      ["A model snippet."]⟩ : ClauseAnalysis).precedent_snippets ≠ [] :=
  ⟨rfl, rfl, by decide⟩

/-- Claim C3 amended: when precedent retrieval returns an empty result set,
`analyse_clause` does not raise and returns a verdict whose
`precedent_snippets` is the completion response's value for that key,
defaulting to the empty list when the key is absent (so it is `[]` exactly
when the completion omits the key or returns an empty list). -/
theorem claim_C3_amended (S : Services) (c : Clause) (ct rp : String) (emb : Emb)
    (raw : GeminiJson) (rl ex st : String)
    (h1 : S.get_embedding c.raw_text = .ok emb)
    (h2 : S.search_precedents emb c.label ct 3 = .ok [])
    (h3 : ∀ sys usr, S.call_gemini_json sys usr = .ok raw)
    (h4 : raw.risk_level = some rl) (h5 : raw.explanation = some ex)
    (h6 : raw.suggested_text = some st) :
    get_precedents_for_clause S c.raw_text c.label ct 3 = .ok [] ∧
    analyse_clause S c ct rp =
      .ok ⟨c.label, rl, ex, st, raw.precedent_snippets.getD []⟩ := by
  have hget : get_precedents_for_clause S c.raw_text c.label ct 3 = .ok [] := by
    unfold get_precedents_for_clause
    rw [h1, exceptBindOk, h2, exceptBindOk]
    rfl
  refine ⟨hget, ?_⟩
  unfold analyse_clause
  rw [hget]
  simp only [exceptBindOk, h3, h4, h5, h6, dictRequire]

/-- Witness for the amended C3 at concrete inputs: empty retrieval, a
completion response without the `precedent_snippets` key, and the verdict
comes back with empty snippets. -/
theorem claim_C3_amended_witness :
    analyse_clause
      ⟨fun _ => .ok [], fun _ _ _ _ => .ok [],
       fun _ _ => .ok ⟨some "AMBER", some "Short notice.", some "Fixed text.", none⟩⟩
      ⟨"termination", "Either party may terminate on 30 days notice.", none, none⟩
      "saas" "conservative" =
      .ok ⟨"termination", "AMBER", "Short notice.", "Fixed text.", []⟩ :=
  (claim_C3_amended _ _ "saas" "conservative" []
      ⟨some "AMBER", some "Short notice.", some "Fixed text.", none⟩
      "AMBER" "Short notice." "Fixed text." rfl rfl (fun _ _ => rfl) rfl rfl rfl).2

/-- Claim C10: building the `ClauseAnalysis` from the completion-service
JSON treats a missing `precedent_snippets` key as the empty list, but a
missing `risk_level`, `explanation` or `suggested_text` key is a hard
`KeyError` failure for the clause (the keys are demanded in that order). -/
theorem claim_C10 (S : Services) (c : Clause) (ct rp : String) (emb : Emb)
    (hits : List QdrantHit) (raw : GeminiJson)
    (h1 : S.get_embedding c.raw_text = .ok emb)
    (h2 : S.search_precedents emb c.label ct 3 = .ok hits)
    (h3 : ∀ sys usr, S.call_gemini_json sys usr = .ok raw) :
    (raw.risk_level = none →
       analyse_clause S c ct rp = .error (.keyError "risk_level")) ∧
    (∀ rl, raw.risk_level = some rl → raw.explanation = none →
       analyse_clause S c ct rp = .error (.keyError "explanation")) ∧
    (∀ rl ex, raw.risk_level = some rl → raw.explanation = some ex →
       raw.suggested_text = none →
       analyse_clause S c ct rp = .error (.keyError "suggested_text")) ∧
    (∀ rl ex st, raw.risk_level = some rl → raw.explanation = some ex →
       raw.suggested_text = some st → raw.precedent_snippets = none →
       analyse_clause S c ct rp = .ok ⟨c.label, rl, ex, st, []⟩) := by
  have hps : get_precedents_for_clause S c.raw_text c.label ct 3 =
      .ok (hits.map fun hit =>
        let payload := hit.payload.getD emptyPayload
        { id := hit.id
          clause_type := payload.clause_type.getD ""
          contract_type := payload.contract_type
          risk_level := payload.risk_level.getD ""
          jurisdiction := payload.jurisdiction
          text := payload.text.getD "" }) := by
    unfold get_precedents_for_clause
    rw [h1, exceptBindOk, h2, exceptBindOk]
  refine ⟨?_, ?_, ?_, ?_⟩
  · intro k1
    unfold analyse_clause
    rw [hps]
    simp only [exceptBindOk, h3, k1, dictRequire, exceptBindErr]
  · intro rl k1 k2
    unfold analyse_clause
    rw [hps]
    simp only [exceptBindOk, h3, k1, k2, dictRequire, exceptBindErr]
  · intro rl ex k1 k2 k3
    unfold analyse_clause
    rw [hps]
    simp only [exceptBindOk, h3, k1, k2, k3, dictRequire, exceptBindErr]
  · intro rl ex st k1 k2 k3 k4
    unfold analyse_clause
    rw [hps]
    simp only [exceptBindOk, h3, k1, k2, k3, k4, dictRequire, Option.getD]

/-- Constant services for the C10 witness: empty retrieval and a fixed
completion response. -/
def c10Services (raw : GeminiJson) : Services :=
  { get_embedding := fun _ => .ok []
    search_precedents := fun _ _ _ _ => .ok []
    call_gemini_json := fun _ _ => .ok raw }

/-- Witness for C10 at concrete inputs: a response missing `risk_level`
raises `KeyError`, and a complete response missing only
`precedent_snippets` yields a verdict with empty snippets. -/
theorem claim_C10_witness :
    analyse_clause (c10Services ⟨none, some "e", some "s", some []⟩)
      ⟨"termination", "Terminable at will.", none, none⟩ "saas" "conservative" =
      .error (.keyError "risk_level") ∧
    analyse_clause (c10Services ⟨some "RED", some "e", some "s", none⟩)
      ⟨"termination", "Terminable at will.", none, none⟩ "saas" "conservative" =
      .ok ⟨"termination", "RED", "e", "s", []⟩ :=
  ⟨(claim_C10 (c10Services ⟨none, some "e", some "s", some []⟩)
      ⟨"termination", "Terminable at will.", none, none⟩ "saas" "conservative"
      [] [] ⟨none, some "e", some "s", some []⟩ rfl rfl (fun _ _ => rfl)).1 rfl,
   (claim_C10 (c10Services ⟨some "RED", some "e", some "s", none⟩)
      ⟨"termination", "Terminable at will.", none, none⟩ "saas" "conservative"
      [] [] ⟨some "RED", some "e", some "s", none⟩ rfl rfl (fun _ _ => rfl)).2.2.2
      "RED" "e" "s" rfl rfl rfl rfl⟩

end ContractLens
